import Mathlib

/-!
Verification of the ROHC TCP-profile compressor (src/src/comp/c_tcp.c) against
its natural-language specification.

The definitions below are a shallow embedding of the C source.  Machine
integers are modelled as Nat with explicit masks (x &&& m), divisions and
mod-2^w reductions at the points where the C code truncates; byte buffers are
List Nat; fallible or partial behaviour (out-of-bounds reads, the options
arena assertion) is made explicit with Option or dedicated result
constructors.  Constants whose defining header files are not part of the
source tree (c_tcp.h, tcp.h, rohc_packets.h, ipproto.h) are modelled from the
specification and the RFCs it cites; each such definition carries a comment
saying so.
-/

/- ### 16-bit byte swap

Models the WB_t byte-swap idiom of c_tcp.c (for example lines 936-937:
swapped.uint8[0] = x.uint8[1]; swapped.uint8[1] = x.uint8[0]), which swaps the
two bytes of a 16-bit value independently of host endianness. -/
def swap16 (x : Nat) : Nat := (x % 256) * 256 + x / 256

/- ### IP-ID behavior states

The ip_id_behavior constants (header not in src/).  The numeric values are
fixed by the 2-bit ip_id_behavior wire field of co_common (c_tcp.c line 4668)
and by the comparison ip_id_behavior <= IP_ID_BEHAVIOR_SEQUENTIAL_SWAPPED
(line 3651) that separates the seq_* family from the rnd_* family. -/
inductive IpIdBehavior
  | sequential
  | sequentialSwapped
  | random
  | zero
  | unknown
deriving DecidableEq, Repr

def IpIdBehavior.value : IpIdBehavior → Nat
  | .sequential => 0
  | .sequentialSwapped => 1
  | .random => 2
  | .zero => 3
  | .unknown => 4

/- ### IP-ID behavior classifier, as implemented

Transcribed from the switch over ip_id_behavior in c_tcp_encode, c_tcp.c lines
921-1037.  last and id are host-order 16-bit values (the code applies ntohs
before the switch).  Where the C adds 1 to a uint16 read into an int (for
example last_ip_id.uint16 + 1) there is no wrap; where it increments a uint16
in place (++swapped_ip_id.uint16) the sum wraps modulo 2^16. -/
def ipIdBehaviorAdvance (b : IpIdBehavior) (last id : Nat) : IpIdBehavior :=
  match b with
  | .sequential =>
      -- lines 923-934
      if last + 1 ≠ id then .random else .sequential
  | .sequentialSwapped =>
      -- lines 935-953: swapped = swap(last); ++swapped; compare bytewise with swap(id)
      if (swap16 last + 1) % 65536 ≠ swap16 id then .random else .sequentialSwapped
  | .random =>
      -- lines 954-980
      if last + 1 = id then .sequential
      else if (swap16 last + 1) % 65536 = swap16 id then .sequentialSwapped
      else if id = 0 then .zero
      else .random
  | .zero =>
      -- lines 981-1002
      if id ≠ 0 then
        if id = 1 then .sequential
        else if id = 256 then .sequentialSwapped
        else .random
      else .zero
  | .unknown =>
      -- lines 1003-1034: note that the sequential-swapped test compares
      -- last + 1 (not swap(last) + 1) with swap(id), and that last = swap(id)
      -- is an additional no-change case
      if id = 0 then .zero
      else if last + 1 = id then .sequential
      else if last = id then .unknown
      else if last + 1 = swap16 id then .sequentialSwapped
      else if last = swap16 id then .unknown
      else .random

/- ### IP-ID behavior transition table of spec section 4.4

This definition follows the specification's words, for comparison with
ipIdBehaviorAdvance which follows the source.  Where the table writes
swap(last)+1 == swap(ip_id) the sum is taken modulo 2^16, matching the uint16
increment the source uses for the same test in the sequential-swapped and
random states; last+1 == ip_id is taken without wrap as in the source. -/
def ipIdBehaviorSpecTable (b : IpIdBehavior) (last id : Nat) : IpIdBehavior :=
  match b with
  | .sequential =>
      if last + 1 = id then .sequential else .random
  | .sequentialSwapped =>
      if (swap16 last + 1) % 65536 = swap16 id then .sequentialSwapped else .random
  | .random =>
      if last + 1 = id then .sequential
      else if (swap16 last + 1) % 65536 = swap16 id then .sequentialSwapped
      else if id = 0 then .zero
      else .random
  | .zero =>
      if id = 0 then .zero
      else if id = 1 then .sequential
      else if id = 256 then .sequentialSwapped
      else .random
  | .unknown =>
      if id = 0 then .zero
      else if last + 1 = id then .sequential
      else if (swap16 last + 1) % 65536 = swap16 id then .sequentialSwapped
      else if last = id then .unknown
      else .random

/- ### SACK field encoder

c_sack_pure_lsb, c_tcp.c lines 2552-2593.  The residue field - base is uint32
arithmetic; inputs are host-order 32-bit values (the caller applies ntohl).
The source asserts sack_field < 0x40000000 before the discriminator-11 case;
the model emits the same bytes the source would. -/
def c_sack_pure_lsb (base field : Nat) : List Nat :=
  let f := (field + 4294967296 - base % 4294967296) % 4294967296
  if f < 0x8000 then
    -- discriminator 0, 15-bit residue, 2 bytes
    [f / 256 % 128, f % 256]
  else if f < 0x400000 then
    -- discriminator 10, 22-bit residue, 3 bytes
    [128 + f / 65536 % 64, f / 256 % 256, f % 256]
  else
    -- discriminator 11, 30-bit residue, 4 bytes
    [192 + f / 16777216 % 64, f / 65536 % 256, f / 256 % 256, f % 256]

/- ### SACK block encoder

c_sack_block, c_tcp.c lines 2608-2628.  Note that the source passes the same
reference value to both calls of c_sack_pure_lsb: block_end is compressed
against the reference, not against block_start (even though the comment on
line 2623 reads block_end =:= sack_var_length_enc(block_start)). -/
def c_sack_block (reference blockStart blockEnd : Nat) : List Nat :=
  c_sack_pure_lsb reference blockStart ++ c_sack_pure_lsb reference blockEnd

/- ### Timestamp LSB encoder

c_ts_lsb, c_tcp.c lines 2428-2537 (the live branch, not the FIRST_VERSION
block).  Inputs are host-order 32-bit values; the mask comparisons of the
source, for example (ts & 0xFFFFFF80) == (last & 0xFFFFFF80), are written as
quotient comparisons ts / 2^7 = last / 2^7, identical on the uint32 domain. -/
def c_ts_lsb (lastTs ts : Nat) : List Nat :=
  if ts / 128 = lastTs / 128 then
    -- discriminator 0: 7 bits in 1 byte
    [ts % 128]
  else if ts / 16384 = lastTs / 16384 then
    -- discriminator 10: 14 bits in 2 bytes
    [128 + ts / 256 % 64, ts % 256]
  else if ts / 2097152 = lastTs / 2097152 then
    -- discriminator 110: 21 bits in 3 bytes
    [192 + ts / 65536 % 32, ts / 256 % 256, ts % 256]
  else if ts / 536870912 = lastTs / 536870912 then
    -- discriminator 111: 29 bits in 4 bytes
    [224 + ts / 16777216 % 32, ts / 65536 % 256, ts / 256 % 256, ts % 256]
  else
    -- fallback: the raw 32 bits in 4 bytes; the source only emits a trace
    -- warning here, nothing is returned to the caller besides the bytes
    [ts / 16777216 % 256, ts / 65536 % 256, ts / 256 % 256, ts % 256]

/- ### Protocol constants and the ipproto_specifications flags

Modelled from the spec: ipproto.h is not in the source tree.  Spec section 4.3
fixes the IPv6 extension option set as hop-by-hop, routing, destination
options, AH, MIME and GRE, and the tunneling set as the IP-in-IP protocols;
the numeric protocol values are the IANA assignments the ROHC_IPPROTO_* enum
mirrors (HOPOPTS 0, IPIP 4, TCP 6, IPV6 41, ROUTING 43, GRE 47, AH 51,
MINE 55, DSTOPTS 60). -/
def ROHC_IPPROTO_TCP : Nat := 6

def isIpv6Option (p : Nat) : Bool :=
  p == 0 || p == 43 || p == 60 || p == 51 || p == 55 || p == 47

def isIpTunneling (p : Nat) : Bool := p == 4 || p == 41

/- ### Structured input for the context-creation walk

One record per IPv6 extension header; which of its fields are meaningful
depends on the protocol by which the walk reaches it. -/
structure V6Ext where
  nextHeader : Nat
  length : Nat
  cFlag : Nat
  kFlag : Nat
  sFlag : Nat
  sBit : Nat
deriving DecidableEq, Repr

/- One record per IP header of the chain; badVersion carries a version number
outside {4, 6}. -/
inductive IpHdr
  | v4 (headerLength mf rf protocol : Nat)
  | v6 (nextHeader : Nat) (exts : List V6Ext)
  | badVersion (version : Nat)
deriving DecidableEq, Repr

/- Size in bytes of one IPv6 extension header, from the switch in
c_tcp_create, c_tcp.c lines 221-254.  The AH case uses
sizeof(ip_ah_opt_t) = 12 (the standard fixed AH layout: next header, length,
reserved 16 bits, SPI 32 bits, sequence number 32 bits; the header defining
ip_ah_opt_t is not in src/), so the source expression
sizeof(ip_ah_opt_t) - sizeof(uint32_t) + (length << 4) - sizeof(int32_t)
becomes length * 16 + 4. -/
def v6ExtSize (proto : Nat) (e : V6Ext) : Nat :=
  if proto = 0 ∨ proto = 43 ∨ proto = 60 then (e.length + 1) * 8
  else if proto = 47 then (e.cFlag + e.kFlag + e.sFlag + 1) * 8
  else if proto = 55 then (2 + e.sBit) * 8
  else e.length * 16 + 4

/- Result of the creation walk: ok carries the terminating protocol and the
total IP-header bytes consumed; reject models return -1; stuck marks inputs
on which the C code would read beyond the structured chain (it never rejects
there, it reads whatever bytes follow). -/
inductive CreateResult
  | ok (protocol : Nat) (size : Nat)
  | reject
  | stuck
deriving DecidableEq, Repr

/- The inner IPv6 extension walk of c_tcp_create (lines 219-258): consume
extension records while the protocol carries the IPV6_OPTION flag.  All six
flagged protocols are handled by the switch, whose default (return -1) is
unreachable with the modelled flag set. -/
def createExtWalk (proto : Nat) (exts : List V6Ext) (size : Nat) : CreateResult :=
  match exts with
  | [] => if isIpv6Option proto then .stuck else .ok proto size
  | e :: rest =>
      if isIpv6Option proto then
        createExtWalk e.nextHeader rest (size + v6ExtSize proto e)
      else .ok proto size

/- The outer do-while of c_tcp_create (lines 190-265): process one IP header,
then continue while the terminating protocol is a tunneling protocol and the
consumed size is still below the packet size.  sizeof v4 header = 20,
sizeof v6 header = 40. -/
def createHdrWalk (chain : List IpHdr) (size pktSize : Nat) : CreateResult :=
  match chain with
  | [] => .stuck
  | h :: rest =>
      match h with
      | .v4 hl mf rf proto =>
          -- lines 197-213: no options, no fragmentation
          if hl ≠ 5 then .reject
          else if mf ≠ 0 ∨ rf ≠ 0 then .reject
          else if isIpTunneling proto ∧ size + 20 < pktSize then
            createHdrWalk rest (size + 20) pktSize
          else .ok proto (size + 20)
      | .v6 nh exts =>
          match createExtWalk nh exts (size + 40) with
          | .ok proto size2 =>
              if isIpTunneling proto ∧ size2 < pktSize then
                createHdrWalk rest size2 pktSize
              else .ok proto size2
          | r => r
      | .badVersion _ => .reject

/- c_tcp_create precondition phase (c_tcp.c lines 190-272): the header walk
followed by the final size check (line 267: size >= ip->size rejects).  The
walk never checks that the terminating protocol is TCP. -/
def c_tcp_create (chain : List IpHdr) (pktSize : Nat) : CreateResult :=
  match createHdrWalk chain 0 pktSize with
  | .ok proto size => if pktSize ≤ size then .reject else .ok proto size
  | r => r

/- ### TCP option constants

Modelled from the spec and RFC 793/2018/1323 (tcp.h is not in src/): option
kinds EOL 0, NOP 1, MAXSEG 2, WINDOW 3, SACK-PERMITTED 4, SACK 5,
TIMESTAMP 8; fixed lengths MAXSEG 4, WINDOW 3, SACK-PERMITTED 2,
TIMESTAMP 10.  The source itself advances past genuine SACK-permitted
options by TCP_OLEN_SACK_PERMITTED (c_tcp.c lines 2815-2816), which fixes
that constant at the RFC length 2. -/
def TCP_OLEN_SACK_PERMITTED : Nat := 2

def MAX_TCP_OPTION_INDEX : Nat := 16

def MAX_TCP_OPT_SIZE : Nat := 256

/- The kind-to-index table tcp_options_index, c_tcp.c lines 62-80, with the
TCP_INDEX_* values the spec fixes (EOL 0, NOP 1, MAXSEG 2, WINDOW 3,
SACK-PERMITTED 4, SACK 5, TIMESTAMP 8).  It has exactly 16 entries: a lookup
of any kind above 15 is out of bounds. -/
def tcp_options_index : List Nat :=
  [0, 1, 2, 3, 4, 5, 7, 8, 8, 9, 10, 11, 12, 13, 14, 15]

/- Big-endian 32-bit read of four option bytes (the ntohl of the source). -/
def be32 (b0 b1 b2 b3 : Nat) : Nat := ((b0 * 256 + b1) * 256 + b2) * 256 + b3

/- Overwrite dst starting at position i with the bytes of src (memcpy). -/
def listBlit (dst : List Nat) (i : Nat) (src : List Nat) : List Nat :=
  match src with
  | [] => dst
  | b :: rest => listBlit (dst.set i b) (i + 1) rest

/- ### State of the tcp_compress_tcp_options walk

opts are the bytes at the current options pointer, i the remaining-length
counter (an int in the source, so it may go negative), the other fields the
parts of sc_tcp_context the function reads and writes: the 16-entry
tcp_options_list (0xFF = free), tcp_options_offset, the tcp_options_values
arena with its free cursor, the dedicated caches for MAXSEG, WINDOW,
TIMESTAMP and SACK, and the two output buffers (the XI list bytes and the
compressed_options buffer). -/
structure OptState where
  opts : List Nat
  i : Int
  optList : List Nat
  optOffsets : List Nat
  optValues : List Nat
  freeOffset : Nat
  maxseg : List Nat
  window : Nat
  tsOpt : List Nat
  sackLength : Nat
  sackBlocks : List Nat
  ackNumber : Nat
  compressed : List Nat
  xi : List Nat
deriving DecidableEq, Repr

/- Outcome of one iteration of the option loop.  oobIndexLookup marks the
out-of-bounds read tcp_options_index[kind] for kind >= 16 (c_tcp.c line 2746,
undefined behaviour in the source); oobRead marks a read of option bytes
beyond the supplied buffer; arenaOverflow marks the failed assertion
tcp_options_free_offset < MAX_TCP_OPT_SIZE. -/
inductive OptStep
  | cont (s : OptState)
  | finished (s : OptState)
  | oobIndexLookup (kind : Nat)
  | oobRead
  | arenaOverflow
deriving DecidableEq, Repr

def optByte (s : OptState) (n : Nat) : Option Nat := s.opts.get? n

def optSeg (s : OptState) (start n : Nat) : Option (List Nat) :=
  if start + n ≤ s.opts.length then some ((s.opts.drop start).take n) else none

/- The generic value comparison of c_tcp.c lines 2838-2850 (and 2899-2909,
2939-2955): compare the cached length byte plus 2 against the option's length
byte, then memcmp the cached value bytes against the option value. -/
def genericValueMatch (s : OptState) (j : Nat) : Option Bool :=
  let off := s.optOffsets.getD j 0
  let pLen := s.optValues.getD off 0
  match optByte s 1 with
  | none => none
  | some len =>
      if pLen + 2 = len then
        match optSeg s 2 pLen with
        | none => none
        | some seg => some (decide (seg = (s.optValues.drop (off + 1)).take pLen))
      else some false

/- XI item for a reused index: *(ptr++) = index (8-bit XI fields, since
MAX_TCP_OPTION_INDEX is 16; c_tcp.c line 3085). -/
def sameIndexNoValue (s : OptState) (j : Nat) : OptStep :=
  .cont { s with xi := s.xi ++ [j] }

/- XI item for a new item: *(ptr++) = index | 0x80 (c_tcp.c line 3068). -/
def emitNewXi (s : OptState) (j : Nat) : OptStep :=
  .cont { s with xi := s.xi ++ [128 + j] }

/- c_tcp_opt_sack, c_tcp.c lines 2644-2671: a count byte (length - 2) >> 3
followed by c_sack_block of each 8-byte block against the ack number. -/
def sackBlockListBytes (ack : Nat) (blockBytes : List Nat) : Nat → Option (List Nat)
  | 0 => some []
  | n + 1 =>
      match blockBytes with
      | a0 :: a1 :: a2 :: a3 :: b0 :: b1 :: b2 :: b3 :: rest =>
          match sackBlockListBytes ack rest n with
          | none => none
          | some tail => some (c_sack_block ack (be32 a0 a1 a2 a3) (be32 b0 b1 b2 b3) ++ tail)
      | _ => none

def c_tcp_opt_sack (ack len : Nat) (blockBytes : List Nat) : Option (List Nat) :=
  match sackBlockListBytes ack blockBytes ((len - 2) / 8) with
  | none => none
  | some bs => some ((len - 2) / 8 :: bs)

/- The new_index_with_compressed_value block, c_tcp.c lines 2988-3071:
per-kind compressed-value emission, walk advance and the new-item XI.  The
kind > 15 guard of the source default case (lines 3044-3050) is unreachable
here because the loop head's table lookup is already out of bounds for such
kinds. -/
def newIndexWithCompressedValue (s : OptState) (j : Nat) : OptStep :=
  match s.opts.get? 0 with
  | none => .oobRead
  | some kind =>
      if kind = 2 then
        -- TCP_OPT_MAXSEG: 2 raw bytes
        match optSeg s 2 2 with
        | none => .oobRead
        | some seg =>
            emitNewXi { s with compressed := s.compressed ++ seg,
                               i := s.i - 4, opts := s.opts.drop 4 } j
      else if kind = 3 then
        -- TCP_OPT_WINDOW: 1 raw byte
        match optByte s 2 with
        | none => .oobRead
        | some b =>
            emitNewXi { s with compressed := s.compressed ++ [b],
                               i := s.i - 3, opts := s.opts.drop 3 } j
      else if kind = 5 then
        -- TCP_OPT_SACK
        match optByte s 1 with
        | none => .oobRead
        | some len =>
            match optSeg s 2 (len - 2) with
            | none => .oobRead
            | some blockBytes =>
                match c_tcp_opt_sack s.ackNumber len blockBytes with
                | none => .oobRead
                | some bs =>
                    emitNewXi { s with compressed := s.compressed ++ bs,
                                       i := s.i - len, opts := s.opts.drop len } j
      else if kind = 8 then
        -- TCP_OPT_TIMESTAMP: two c_ts_lsb residues, then cache the value
        match optSeg s 2 8 with
        | none => .oobRead
        | some seg =>
            let tsvalCtx := be32 (s.tsOpt.getD 0 0) (s.tsOpt.getD 1 0)
                                 (s.tsOpt.getD 2 0) (s.tsOpt.getD 3 0)
            let tsecrCtx := be32 (s.tsOpt.getD 4 0) (s.tsOpt.getD 5 0)
                                 (s.tsOpt.getD 6 0) (s.tsOpt.getD 7 0)
            let tsval := be32 (seg.getD 0 0) (seg.getD 1 0) (seg.getD 2 0) (seg.getD 3 0)
            let tsecr := be32 (seg.getD 4 0) (seg.getD 5 0) (seg.getD 6 0) (seg.getD 7 0)
            emitNewXi { s with
                compressed := s.compressed ++ c_ts_lsb tsvalCtx tsval ++ c_ts_lsb tsecrCtx tsecr,
                tsOpt := seg, i := s.i - 10, opts := s.opts.drop 10 } j
      else
        -- generic option: c_tcp_opt_generic emits the marker 0xFF 0x00
        match optByte s 1 with
        | none => .oobRead
        | some len =>
            emitNewXi { s with compressed := s.compressed ++ [255, 0],
                               i := s.i - len, opts := s.opts.drop len } j

/- Outcome of the first reuse scan, c_tcp.c lines 2893-2911: run index from 6
while below 16 and the slot is occupied; a slot holding the same kind with
the same value reuses that index (without advancing the walk, as in the
source); otherwise the scan ends either at 16 (no free slot, no match) or at
the first free slot.  The loop counter j runs from 6 towards 16; the extra
Nat argument is the remaining iteration count 16 - j, which makes the
recursion structural. -/
inductive ReuseScanOutcome
  | fullNoMatch
  | freeAt (j : Nat)
  | matched (j : Nat)
  | oob
deriving DecidableEq, Repr

def reuseScan (s : OptState) (kind : Nat) : Nat → Nat → ReuseScanOutcome
  | _, 0 => .fullNoMatch
  | j, left + 1 =>
      if s.optList.getD j 0 = 255 then .freeAt j
      else if s.optList.getD j 0 = kind then
        match genericValueMatch s j with
        | none => .oob
        | some true => .matched j
        | some false => reuseScan s kind (j + 1) left
      else reuseScan s kind (j + 1) left

/- Outcome of the free-slot search, c_tcp.c lines 2929-2986: a slot with the
same kind and same value reuses the index after advancing by the option
length; the first free slot stores kind, offset and value bytes in the arena
(checking the arena assertion) and goes on to emit the compressed value; if
no slot is found the caller skips the option.  As in reuseScan, the loop
counter j runs from 6 towards 16 and the extra argument is the remaining
iteration count 16 - j, so the recursion is structural. -/
inductive FreeScanOutcome
  | fullNoSlot
  | matchedAdvance (j : Nat)
  | storedAt (j : Nat) (s : OptState)
  | oob
  | overflow
deriving DecidableEq, Repr

def freeScan (s : OptState) (kind : Nat) : Nat → Nat → FreeScanOutcome
  | _, 0 => .fullNoSlot
  | j, left + 1 =>
      if s.optList.getD j 0 = kind then
        match genericValueMatch s j with
        | none => .oob
        | some true => .matchedAdvance j
        | some false => freeScan s kind (j + 1) left
      else if s.optList.getD j 0 = 255 then
        match s.opts.get? 1 with
        | none => .oob
        | some len =>
            -- *pValue = *(options + 1) - 2 is uint8 arithmetic
            let vlen := (len + 254) % 256
            match optSeg s 2 vlen with
            | none => .oob
            | some seg =>
                let newFree := s.freeOffset + 1 + vlen
                if MAX_TCP_OPT_SIZE ≤ newFree then .overflow
                else .storedAt j { s with
                  optList := s.optList.set j kind,
                  optOffsets := s.optOffsets.set j s.freeOffset,
                  optValues :=
                    listBlit (s.optValues.set s.freeOffset vlen) (s.freeOffset + 1) seg,
                  freeOffset := newFree }
      else freeScan s kind (j + 1) left

/- Continuation after falling through to the free-slot search (c_tcp.c line
2926 onward), reached both from the already-used-with-different-value cases
and from the never-used case once the reuse scan stops at a free slot. -/
def afterFindFree (s : OptState) (kind : Nat) : OptStep :=
  match freeScan s kind 6 10 with
  | .oob => .oobRead
  | .overflow => .arenaOverflow
  | .matchedAdvance j =>
      match optByte s 1 with
      | none => .oobRead
      | some len => sameIndexNoValue { s with i := s.i - len, opts := s.opts.drop len } j
  | .storedAt j s2 => newIndexWithCompressedValue s2 j
  | .fullNoSlot =>
      -- lines 2978-2986: no free index; skip the option's own length,
      -- emit nothing, update nothing
      match optByte s 1 with
      | none => .oobRead
      | some len => .cont { s with i := s.i - len, opts := s.opts.drop len }

/- One iteration of the option loop of tcp_compress_tcp_options, c_tcp.c
lines 2743-3090.  The first statement of the body is the unguarded lookup
index = tcp_options_index[*options] (line 2746). -/
def tcp_compress_tcp_options_step (s : OptState) : OptStep :=
  if s.i ≤ 0 then .finished s
  else
    match s.opts.get? 0 with
    | none => .oobRead
    | some kind =>
        match tcp_options_index.get? kind with
        | none => .oobIndexLookup kind
        | some idx =>
            if s.optList.getD idx 0 = kind then
              -- option already used at this index (lines 2753-2854)
              if idx = 1 then
                sameIndexNoValue { s with i := s.i - 1, opts := s.opts.drop 1 } 1
              else if idx = 0 then
                sameIndexNoValue { s with i := 0 } 0
              else if idx = 2 then
                match optSeg s 2 2 with
                | none => .oobRead
                | some seg =>
                    if seg = s.maxseg then
                      sameIndexNoValue { s with i := s.i - 4, opts := s.opts.drop 4 } 2
                    else afterFindFree s kind
              else if idx = 3 then
                match optByte s 2 with
                | none => .oobRead
                | some w =>
                    if w = s.window then
                      sameIndexNoValue { s with i := s.i - 3, opts := s.opts.drop 3 } 3
                    else afterFindFree s kind
              else if idx = 8 then
                match optSeg s 2 8 with
                | none => .oobRead
                | some seg =>
                    if seg = s.tsOpt then
                      sameIndexNoValue { s with i := s.i - 10, opts := s.opts.drop 10 } 8
                    else newIndexWithCompressedValue s 8
              else if idx = 4 then
                sameIndexNoValue { s with i := s.i - 2, opts := s.opts.drop 2 } 4
              else if idx = 5 then
                match optByte s 1 with
                | none => .oobRead
                | some len =>
                    if s.sackLength = len then
                      match optSeg s 2 len with
                      | none => .oobRead
                      | some seg =>
                          if seg = s.sackBlocks.take len then
                            sameIndexNoValue { s with i := s.i - len, opts := s.opts.drop len } 5
                          else newIndexWithCompressedValue s 5
                    else newIndexWithCompressedValue s 5
              else
                -- generic kind at its own index (lines 2834-2853); on a value
                -- match the source reuses the index without advancing
                match genericValueMatch s idx with
                | none => .oobRead
                | some true => sameIndexNoValue s idx
                | some false => afterFindFree s kind
            else
              -- option not at its table index (lines 2856-2924)
              if idx = 1 then
                -- the source advances first and then stores *options, i.e. the
                -- byte following the NOP (lines 2864-2870)
                match s.opts.get? 1 with
                | none => .oobRead
                | some b =>
                    sameIndexNoValue { s with i := s.i - 1, opts := s.opts.drop 1,
                                              optList := s.optList.set 1 b } 1
              else if idx = 0 then
                sameIndexNoValue { s with i := 0, optList := s.optList.set 0 kind } 0
              else if idx = 4 then
                -- likewise stores the byte after the option (lines 2877-2883)
                match s.opts.get? 2 with
                | none => .oobRead
                | some b =>
                    sameIndexNoValue { s with i := s.i - 2, opts := s.opts.drop 2,
                                              optList := s.optList.set 4 b } 4
              else if idx = 5 then
                newIndexWithCompressedValue s 5
              else
                match reuseScan s kind 6 10 with
                | .oob => .oobRead
                | .matched j => sameIndexNoValue s j
                | .fullNoMatch =>
                    -- lines 2916-2922: the table is full; the source skips
                    -- TCP_OLEN_SACK_PERMITTED (2) bytes whatever the option
                    -- is, emits nothing and updates nothing
                    .cont { s with i := s.i - (TCP_OLEN_SACK_PERMITTED : Nat),
                                   opts := s.opts.drop TCP_OLEN_SACK_PERMITTED }
                | .freeAt _ => afterFindFree s kind

/- Fuelled run of the option loop.  The source loop has no fuel: a cont chain
that never reaches finished is an infinite loop in the C code. -/
inductive OptWalkResult
  | finished (s : OptState)
  | outOfFuel (s : OptState)
  | oobIndexLookup (kind : Nat)
  | oobRead
  | arenaOverflow
deriving DecidableEq, Repr

def tcp_compress_tcp_options_walk : Nat → OptState → OptWalkResult
  | 0, s => .outOfFuel s
  | fuel + 1, s =>
      match tcp_compress_tcp_options_step s with
      | .finished s2 => .finished s2
      | .cont s2 => tcp_compress_tcp_options_walk fuel s2
      | .oobIndexLookup k => .oobIndexLookup k
      | .oobRead => .oobRead
      | .arenaOverflow => .arenaOverflow

/- ### Refresh states

The three-state refresh machine of the generic context (IR, FO, SO). -/
inductive RohcState
  | ir
  | fo
  | so
deriving DecidableEq, Repr

/- ### TCP header fields read by the encoder

Host-order values; the equality tests of the source compare network-order
fields, which agree with host-order equality, and the masked tests apply
ntohl first, so host-order values are the faithful domain. -/
structure TcpHdrM where
  srcPort : Nat
  dstPort : Nat
  seqNumber : Nat
  ackNumber : Nat
  window : Nat
  checksum : Nat
  urgPtr : Nat
  dataOffset : Nat
  ackFlag : Nat
  urgFlag : Nat
  pshFlag : Nat
  rsfFlags : Nat
  tcpResFlags : Nat
  tcpEcnFlags : Nat
deriving DecidableEq, Repr

/- ### The parts of the flow context the encode path reads and writes

The model fixes the IP chain to a single (innermost) header, carrying the
innermost v4 record fields next to the TCP record fields of sc_tcp_context.
The MSN field is 16 bits wide; that width is modelled from the spec data
model because the sc_tcp_context declaration (c_tcp.h) is not in src/.  The
scaled-field registers, the options table (modelled separately above) and the
seq-change counters are omitted: no claim depends on them. -/
structure TcpCtxM where
  state : RohcState
  msn : Nat
  oldTcphdr : TcpHdrM
  seqNumber : Nat
  ackNumber : Nat
  ackStride : Nat
  ecnUsed : Nat
  ipIdBehavior : IpIdBehavior
  lastIpIdBehavior : IpIdBehavior
  lastIpId : Nat
  df : Nat
  dscp : Nat
  ttlHopl : Nat
deriving DecidableEq, Repr

/- ### Per-packet input of the encode path

staticChain and dynChain stand for the bytes produced by the static- and
dynamic-chain builders (tcp_code_static_ip_part, tcp_code_static_tcp_part,
tcp_code_dynamic_ip_part, tcp_code_dynamic_tcp_part); payloadSize is the
value co_baseheader works with after line 3502; remainLenOk records whether
the data remaining after the IP chain holds at least the 20-byte TCP header
(the code_CO_packet check of line 3299). -/
structure PktM where
  tcp : TcpHdrM
  isV4 : Bool
  ipId : Nat
  df : Nat
  dscp : Nat
  ttlHopl : Nat
  ipEcnFlags : Nat
  payloadSize : Nat
  remainLenOk : Bool
  staticChain : List Nat
  dynChain : List Nat
deriving DecidableEq, Repr

/- ### The CO packet family -/
inductive CoFormat
  | rnd1 | rnd2 | rnd3 | rnd4 | rnd5 | rnd6 | rnd7 | rnd8
  | seq1 | seq2 | seq3 | seq4 | seq5 | seq6 | seq7 | seq8
  | coCommon
deriving DecidableEq, Repr

/- The IP-ID LSB guard of the seq_* branches: the source masks the plain
16-bit values for IP_ID_BEHAVIOR_SEQUENTIAL and the byte-swapped mask images
for IP_ID_BEHAVIOR_SEQUENTIAL_SWAPPED (for example lines 3667-3685). -/
def ipIdOkSeq (beh : IpIdBehavior) (mask maskSw last id : Nat) : Bool :=
  if beh = .sequential then last &&& mask == id &&& mask
  else last &&& maskSw == id &&& maskSw

/- The seq_* decision subtree of co_baseheader, c_tcp.c lines 3651-4034. -/
def seqSelect (c : TcpCtxM) (p : PktM) : CoFormat :=
  let tcp := p.tcp
  let old := c.oldTcphdr
  let ipOk3 := ipIdOkSeq c.ipIdBehavior 0xFFF8 0xF8FF c.lastIpId p.ipId
  let ipOk4 := ipIdOkSeq c.ipIdBehavior 0xFFF0 0xF0FF c.lastIpId p.ipId
  let ipOk5 := ipIdOkSeq c.ipIdBehavior 0xFFE0 0xE0FF c.lastIpId p.ipId
  let ipOk7 := ipIdOkSeq c.ipIdBehavior 0xFF80 0x80FF c.lastIpId p.ipId
  if 5 < tcp.dataOffset then
    -- TCP options present (lines 3660-3702)
    if tcp.window ≠ old.window then .coCommon
    else if ¬ ipOk4 then .coCommon
    else if tcp.seqNumber &&& 0xFFFFC000 ≠ old.seqNumber &&& 0xFFFFC000 then .coCommon
    else if tcp.ackNumber &&& 0xFFFF8000 ≠ old.ackNumber &&& 0xFFFF8000 then .coCommon
    else .seq8
  else if tcp.rsfFlags ≠ old.rsfFlags then
    -- lines 3705-3742
    if tcp.window = old.window then
      if ¬ ipOk4 then .coCommon
      else if tcp.seqNumber &&& 0xFFFFC000 ≠ old.seqNumber &&& 0xFFFFC000 then .coCommon
      else .seq8
    else .coCommon
  else if tcp.seqNumber &&& 0xFFFF ≠ old.seqNumber &&& 0xFFFF then .coCommon
  else if tcp.window ≠ old.window then
    -- lines 3752-3777
    if ¬ ipOk5 then .coCommon else .seq7
  else if tcp.ackFlag ≠ 0 then
    -- lines 3779-3907
    if tcp.ackNumber = old.ackNumber then
      if tcp.ackNumber &&& 0xFFF0 = old.ackNumber &&& 0xFFF0 ∧ p.payloadSize ≠ 0 then
        if ¬ ipOk3 then .coCommon else .seq4
      else .seq1
    else if tcp.seqNumber = old.seqNumber then
      if tcp.ackNumber &&& 0xFFF0 = old.ackNumber &&& 0xFFF0 ∧ c.ackStride ≠ 0 then
        if ¬ ipOk3 then .coCommon else .seq4
      else if ¬ ipOk4 then .coCommon
      else .seq3
    else if tcp.seqNumber &&& 0xFFF0 = old.seqNumber &&& 0xFFF0 ∧ p.payloadSize ≠ 0 then
      if ¬ ipOk7 then .coCommon else .seq6
    else .seq5
  else
    -- ack number absent (lines 3908-4011)
    if tcp.seqNumber = old.seqNumber then
      if p.payloadSize ≠ 0 then
        if ¬ ipOk7 then .coCommon else .seq2
      else if ¬ ipOk4 then .coCommon
      else .seq1
    else if tcp.seqNumber &&& 0xFFF0 = old.seqNumber &&& 0xFFF0 then
      if p.payloadSize ≠ 0 then
        if ¬ ipOk7 then .coCommon else .seq2
      else if ¬ ipOk4 then .coCommon
      else .seq1
    else .coCommon

/- The rnd_* decision subtree of co_baseheader, c_tcp.c lines 4036-4164. -/
def rndSelect (c : TcpCtxM) (p : PktM) : CoFormat :=
  let tcp := p.tcp
  let old := c.oldTcphdr
  if 5 < tcp.dataOffset then
    if tcp.window ≠ old.window then .coCommon else .rnd8
  else if tcp.rsfFlags ≠ old.rsfFlags then
    if tcp.window = old.window then .rnd8 else .coCommon
  else if tcp.seqNumber &&& 0xFFFF ≠ old.seqNumber &&& 0xFFFF then .coCommon
  else if tcp.window ≠ old.window then .rnd7
  else if tcp.ackFlag ≠ 0 then
    if tcp.ackNumber = old.ackNumber then
      if tcp.ackNumber &&& 0xFFF0 = old.ackNumber &&& 0xFFF0 ∧ p.payloadSize ≠ 0 then .rnd4
      else .rnd1
    else if tcp.seqNumber = old.seqNumber then
      if tcp.ackNumber &&& 0xFFF0 = old.ackNumber &&& 0xFFF0 ∧ c.ackStride ≠ 0 then .rnd4
      else .rnd3
    else if tcp.seqNumber &&& 0xFFF0 = old.seqNumber &&& 0xFFF0 ∧ p.payloadSize ≠ 0 then .rnd6
    else .rnd5
  else
    if tcp.seqNumber = old.seqNumber then
      if p.payloadSize ≠ 0 then .rnd2 else .rnd1
    else if tcp.seqNumber &&& 0xFFF0 = old.seqNumber &&& 0xFFF0 then
      if p.payloadSize ≠ 0 then .rnd2 else .rnd1
    else .coCommon

/- Format selection of co_baseheader, c_tcp.c lines 3540-4167: the co_common
triggers first (the duplicated ack high-word test of lines 3602-3608 repeats
the test of lines 3584-3593 and is omitted), then the ecn_used branch, then
the seq_*/rnd_* split on the ip_id behavior.  c is the context after the
classifier ran; ttlIrreg is the ttl_irregular_chain_flag computed by
code_CO_packet. -/
def co_select (c : TcpCtxM) (p : PktM) (ttlIrreg : Bool) : CoFormat :=
  let tcp := p.tcp
  let old := c.oldTcphdr
  if tcp.ackFlag ≠ old.ackFlag ∨ tcp.urgFlag ≠ old.urgFlag then .coCommon
  else if p.isV4 ∧ c.lastIpIdBehavior ≠ c.ipIdBehavior then .coCommon
  else if p.isV4 ∧ p.df ≠ c.df then .coCommon
  else if tcp.tcpEcnFlags ≠ old.tcpEcnFlags then .coCommon
  else if tcp.ackFlag ≠ 0 ∧ tcp.ackNumber &&& 0xFFFF0000 ≠ old.ackNumber &&& 0xFFFF0000 then
    .coCommon
  else if tcp.seqNumber &&& 0xFFFF0000 ≠ old.seqNumber &&& 0xFFFF0000 then .coCommon
  else if tcp.urgFlag ≠ 0 then .coCommon
  else if ttlIrreg then .coCommon
  else if c.ecnUsed ≠ 0 then
    if tcp.seqNumber &&& 0xFFFFC000 ≠ old.seqNumber &&& 0xFFFFC000 then .coCommon
    else if tcp.window ≠ old.window then .coCommon
    else if c.ipIdBehavior.value ≤ 1 then .seq8
    else .rnd8
  else if c.ipIdBehavior.value ≤ 1 then seqSelect c p
  else rndSelect c p

/- co_baseheader, selection plus its context writes: the behavior-changed
trigger rewrites last_ip_id_behavior (line 3562); the co_common branch
rewrites last_ip_id (line 4666, v4 only), dscp (lines 4677 and 4704) and df
(line 4683, v4 only); every branch rewrites the ttl_hopl of the innermost
record at code_next (line 4779).  No other branch touches last_ip_id. -/
def co_baseheader (c : TcpCtxM) (p : PktM) (ttlIrreg : Bool) : CoFormat × TcpCtxM :=
  let fmt := co_select c p ttlIrreg
  let behTriggerFired :=
    ¬ (p.tcp.ackFlag ≠ c.oldTcphdr.ackFlag ∨ p.tcp.urgFlag ≠ c.oldTcphdr.urgFlag)
    ∧ p.isV4 ∧ c.lastIpIdBehavior ≠ c.ipIdBehavior
  (fmt, { c with
    lastIpIdBehavior := if behTriggerFired then c.ipIdBehavior else c.lastIpIdBehavior,
    lastIpId := if fmt = .coCommon ∧ p.isV4 then p.ipId else c.lastIpId,
    dscp := if fmt = .coCommon then p.dscp else c.dscp,
    df := if fmt = .coCommon ∧ p.isV4 then p.df else c.df,
    ttlHopl := p.ttlHopl })

/- Nominal size in bytes of the fixed part of each CO base header, from the
format table comment of c_tcp.c lines 3505-3536 (the real return value adds
CID bytes, list and irregular-chain bytes; only the sign of the encode result
matters to the claims). -/
def coBaseSize : CoFormat → Nat
  | .rnd1 => 4 | .rnd2 => 2 | .rnd3 => 3 | .rnd4 => 2 | .rnd5 => 5 | .rnd6 => 4
  | .rnd7 => 6 | .rnd8 => 7
  | .seq1 => 4 | .seq2 => 3 | .seq3 => 4 | .seq4 => 2 | .seq5 => 6 | .seq6 => 5
  | .seq7 => 6 | .seq8 => 7
  | .coCommon => 8

/- ### Packet-type constants

Modelled from the spec and RFC 3095 (rohc_packets.h is not in src/): the IR
packet-type octet is 0xFD and the IR-DYN octet is 0xF8; the profile octet of
the TCP profile is 0x06.  The claims only need the IR and IR-DYN
discriminators to be the two distinct bytes the source writes at
first_position. -/
def PACKET_TYPE_IR : Nat := 0xFD

def PACKET_TYPE_IR_DYN : Nat := 0xF8

def ROHC_PROFILE_TCP : Nat := 6

/- IR and IR-DYN packet assembly of c_tcp_encode, c_tcp.c lines 1049-1222,
for the small-CID-0 case documented at lines 3329-3333 (one CID byte, the
packet type at position 0): the packet type, the profile octet, the CRC-8
octet, then the chain bytes; the CRC octet is computed by the
framework-provided table-driven CRC-8 (crc.c is not part of the core) over
the whole packet with the CRC field zeroed (line 1212), so the model takes
the CRC-8 as a function parameter. -/
def irPacketBytes (crc8 : List Nat → Nat) (ptype : Nat) (chains : List Nat) : List Nat :=
  ptype :: ROHC_PROFILE_TCP :: crc8 (ptype :: ROHC_PROFILE_TCP :: 0 :: chains) :: chains

/- The ROHC packet emitted by one encode call. -/
inductive RohcPktM
  | ir (bytes : List Nat)
  | irdyn (bytes : List Nat)
  | co (fmt : CoFormat)
deriving DecidableEq, Repr

structure EncodeResult where
  ret : Int
  pkt : Option RohcPktM
  ctx : TcpCtxM
deriving DecidableEq, Repr

/- ### c_tcp_encode

Transcription of c_tcp_encode, c_tcp.c lines 665-1235, over the single-header
model: the chain walk accumulates the ECN bits into the context (lines
717-839); the hard-coded refresh-state switch picks the packet type (lines
894-908); the classifier advances the innermost-v4 IP-ID behavior (lines
910-1039); then either code_CO_packet runs (line 1045; its result is not
checked) or the IR/IR-DYN packet is assembled; finally, lines 1227-1232 are
executed unconditionally: MSN increment and the old_tcphdr, seq_number and
ack_number updates.  The failure modelled is the one of code_CO_packet line
3299 (remaining data shorter than the TCP header), whose -1 becomes the
return value with no further check. -/
def c_tcp_encode (crc8 : List Nat → Nat) (c : TcpCtxM) (p : PktM) : EncodeResult :=
  let ecnRaw := p.ipEcnFlags ||| p.tcp.tcpEcnFlags
  let stPair : Option Nat × RohcState :=
    match c.state with
    | .ir => (some PACKET_TYPE_IR, .fo)
    | .fo => (some PACKET_TYPE_IR_DYN, .so)
    | .so => (none, .so)
  let beh2 :=
    if p.isV4 then ipIdBehaviorAdvance c.ipIdBehavior c.lastIpId p.ipId else c.ipIdBehavior
  let c1 : TcpCtxM := { c with ecnUsed := ecnRaw, state := stPair.2, ipIdBehavior := beh2 }
  let ttlIrreg : Bool := p.ttlHopl ≠ c.ttlHopl
  let built : Int × Option RohcPktM × TcpCtxM :=
    match stPair.1 with
    | some ptype =>
        let chains := (if ptype = PACKET_TYPE_IR then p.staticChain else []) ++ p.dynChain
        let bytes := irPacketBytes crc8 ptype chains
        -- context writes of the dynamic chain builder (tcp_code_dynamic_ip_part,
        -- lines 1628-1722): the innermost v4 record takes the packet's dscp,
        -- ttl, df and ip_id, and last_ip_id_behavior is refreshed; a v6 record
        -- takes dscp and ttl only
        let c2 :=
          if p.isV4 then
            { c1 with lastIpIdBehavior := c1.ipIdBehavior, dscp := p.dscp,
                      ttlHopl := p.ttlHopl, df := p.df, lastIpId := p.ipId }
          else { c1 with dscp := p.dscp, ttlHopl := p.ttlHopl }
        ((bytes.length : Int),
         some (if ptype = PACKET_TYPE_IR then .ir bytes else .irdyn bytes), c2)
    | none =>
        if p.remainLenOk then
          let fc := co_baseheader c1 p ttlIrreg
          ((coBaseSize fc.1 : Int), some (.co fc.1), fc.2)
        else (-1, none, c1)
  let cFinal : TcpCtxM :=
    { built.2.2 with msn := (c.msn + 1) % 65536, oldTcphdr := p.tcp,
                     seqNumber := p.tcp.seqNumber, ackNumber := p.tcp.ackNumber }
  { ret := built.1, pkt := built.2.1, ctx := cFinal }

/- ### Concrete inputs used by the claim theorems and witnesses -/

/- A fresh options-table state as c_tcp_create leaves it (tcp_options_list
memset to 0xFF, line 416), with empty option bytes. -/
def optStateFresh : OptState :=
  { opts := [], i := 0,
    optList := List.replicate 16 255,
    optOffsets := List.replicate 16 0,
    optValues := List.replicate 256 0,
    freeOffset := 0,
    maxseg := [0, 0], window := 0,
    tsOpt := List.replicate 8 0,
    sackLength := 0, sackBlocks := List.replicate 32 0,
    ackNumber := 0, compressed := [], xi := [] }

/- An options area whose first option has kind 16 and declared length 2. -/
def optStateKind16 : OptState := { optStateFresh with opts := [16, 2], i := 2 }

/- A state whose dynamic slots 6..15 are all occupied by other kinds, facing
a new option of kind 9 with declared length 4, followed by two NOPs. -/
def optStateFullTable : OptState :=
  { optStateFresh with
    opts := [9, 4, 1, 1], i := 4,
    optList := [0, 1, 2, 3, 4, 5, 6, 7, 10, 11, 12, 13, 14, 15, 3, 2] }

/- A steady-state TCP header: ack present, no options, nothing changed. -/
def hdrSteady : TcpHdrM :=
  { srcPort := 100, dstPort := 200, seqNumber := 1000, ackNumber := 2000,
    window := 512, checksum := 0, urgPtr := 0, dataOffset := 5,
    ackFlag := 1, urgFlag := 0, pshFlag := 0, rsfFlags := 0,
    tcpResFlags := 0, tcpEcnFlags := 0 }

/- An all-zero header and a changed successor, for the failure scenario. -/
def hdrBefore : TcpHdrM :=
  { srcPort := 0, dstPort := 0, seqNumber := 0, ackNumber := 0,
    window := 0, checksum := 0, urgPtr := 0, dataOffset := 5,
    ackFlag := 0, urgFlag := 0, pshFlag := 0, rsfFlags := 0,
    tcpResFlags := 0, tcpEcnFlags := 0 }

def hdrAfter : TcpHdrM :=
  { hdrBefore with seqNumber := 100, ackNumber := 200, ackFlag := 1 }

/- SO-state context with a sequential innermost IPv4 IP-ID, last value 5. -/
def ctxSoSeq : TcpCtxM :=
  { state := .so, msn := 3, oldTcphdr := hdrSteady, seqNumber := 1000,
    ackNumber := 2000, ackStride := 0, ecnUsed := 0,
    ipIdBehavior := .sequential, lastIpIdBehavior := .sequential,
    lastIpId := 5, df := 0, dscp := 0, ttlHopl := 64 }

/- The matching steady packet: IP-ID advances 5 -> 6, nothing else moves. -/
def pktSteady : PktM :=
  { tcp := hdrSteady, isV4 := true, ipId := 6, df := 0, dscp := 0,
    ttlHopl := 64, ipEcnFlags := 0, payloadSize := 0, remainLenOk := true,
    staticChain := [], dynChain := [] }

/- The same packet with the urgent flag newly set, which forces co_common. -/
def pktUrgent : PktM := { pktSteady with tcp := { hdrSteady with urgFlag := 1 } }

/- IR-state context and a packet with non-empty chains, for the C1 witness. -/
def ctxIrFresh : TcpCtxM := { ctxSoSeq with state := .ir, msn := 20 }

def pktWithChains : PktM := { pktSteady with staticChain := [1, 2], dynChain := [3] }

/- FO-state context for the C3 witness. -/
def ctxFoFresh : TcpCtxM := { ctxSoSeq with state := .fo, msn := 7 }

/- SO-state context facing a packet whose remaining data cannot hold a TCP
header, the failure of code_CO_packet line 3299. -/
def ctxSoFail : TcpCtxM :=
  { state := .so, msn := 10, oldTcphdr := hdrBefore, seqNumber := 0,
    ackNumber := 0, ackStride := 0, ecnUsed := 0,
    ipIdBehavior := .sequential, lastIpIdBehavior := .sequential,
    lastIpId := 5, df := 0, dscp := 0, ttlHopl := 64 }

def pktTruncated : PktM :=
  { tcp := hdrAfter, isV4 := true, ipId := 6, df := 0, dscp := 0,
    ttlHopl := 64, ipEcnFlags := 0, payloadSize := 0, remainLenOk := false,
    staticChain := [], dynChain := [] }

/-- C1: in refresh state IR, encode emits a PACKET_TYPE_IR packet carrying
the static chain, the dynamic chain and a CRC-8 octet over the packet, and
moves the context to FO; in FO it emits a PACKET_TYPE_IR_DYN packet carrying
the dynamic chain and a CRC-8 and moves to SO; in SO it emits a compressed
base header of the CO family and the state stays SO. -/
theorem c_tcp_encode_refresh_states (crc8 : List Nat → Nat) (c : TcpCtxM) (p : PktM) :
    (c.state = .ir →
      (c_tcp_encode crc8 c p).pkt =
        some (.ir (irPacketBytes crc8 PACKET_TYPE_IR (p.staticChain ++ p.dynChain))) ∧
      (c_tcp_encode crc8 c p).ctx.state = .fo)
    ∧ (c.state = .fo →
      (c_tcp_encode crc8 c p).pkt =
        some (.irdyn (irPacketBytes crc8 PACKET_TYPE_IR_DYN p.dynChain)) ∧
      (c_tcp_encode crc8 c p).ctx.state = .so)
    ∧ (c.state = .so →
      (c_tcp_encode crc8 c p).ctx.state = .so ∧
      (p.remainLenOk = true → ∃ f, (c_tcp_encode crc8 c p).pkt = some (.co f))) := by
  refine ⟨?_, ?_, ?_⟩
  · intro h
    cases hv : p.isV4 <;>
      exact ⟨by simp [c_tcp_encode, h, hv, PACKET_TYPE_IR],
             by simp [c_tcp_encode, h, hv, PACKET_TYPE_IR]⟩
  · intro h
    cases hv : p.isV4 <;>
      exact ⟨by simp [c_tcp_encode, h, hv, PACKET_TYPE_IR, PACKET_TYPE_IR_DYN],
             by simp [c_tcp_encode, h, hv, PACKET_TYPE_IR, PACKET_TYPE_IR_DYN]⟩
  · intro h
    refine ⟨?_, ?_⟩
    · cases hr : p.remainLenOk <;>
        simp [c_tcp_encode, co_baseheader, h, hr]
    · intro hr
      simp [c_tcp_encode, h, hr]

/-- C1 witness: a concrete IR-state call. -/
theorem c_tcp_encode_refresh_states_witness :
    (c_tcp_encode (fun _ => 7) ctxIrFresh pktWithChains).pkt =
      some (.ir (irPacketBytes (fun _ => 7) PACKET_TYPE_IR
        (pktWithChains.staticChain ++ pktWithChains.dynChain))) ∧
    (c_tcp_encode (fun _ => 7) ctxIrFresh pktWithChains).ctx.state = .fo :=
  (c_tcp_encode_refresh_states (fun _ => 7) ctxIrFresh pktWithChains).1 rfl

/-- C2: at state unknown with last_ip_id 0x0002 and current ip_id 0x0300 the
implemented classifier moves to sequential-swapped, because it tests
last + 1 = swap(ip_id) instead of the swap(last) + 1 = swap(ip_id) of the
spec section 4.4 table, which sends this observation to random; the code also
carries an extra unlisted no-change row last = swap(ip_id). -/
theorem ipid_unknown_diverges_from_spec_table :
    ipIdBehaviorAdvance .unknown 2 768 = .sequentialSwapped ∧
    ipIdBehaviorSpecTable .unknown 2 768 = .random ∧
    ipIdBehaviorAdvance .unknown 3 768 = .unknown ∧
    ipIdBehaviorSpecTable .unknown 3 768 = .random := by decide

/-- C3: every encode call that returns a non-negative result leaves the MSN
at its previous value plus one modulo 2^16 (c_tcp.c line 1227; the 16-bit
width of the msn field is the one the spec data model declares). -/
theorem c_tcp_encode_msn_increment (crc8 : List Nat → Nat) (c : TcpCtxM) (p : PktM)
    (_h : 0 ≤ (c_tcp_encode crc8 c p).ret) :
    (c_tcp_encode crc8 c p).ctx.msn = (c.msn + 1) % 65536 := rfl

/-- C3 witness: a concrete successful FO-state call, MSN 7 to 8. -/
theorem c_tcp_encode_msn_increment_witness :
    (c_tcp_encode (fun _ => 0) ctxFoFresh pktSteady).ctx.msn = 8 :=
  c_tcp_encode_msn_increment (fun _ => 0) ctxFoFresh pktSteady (by decide)

/-- C4: an encode call in SO state on a packet whose remaining data cannot
hold the 20-byte TCP header returns the failure indicator -1 (code_CO_packet,
c_tcp.c line 3302, propagated unchecked through line 1045), yet the context
is mutated: the MSN is incremented and old_tcphdr, seq_number and ack_number
take the values of the rejected packet. -/
theorem c_tcp_encode_failure_still_mutates_context :
    (c_tcp_encode (fun _ => 0) ctxSoFail pktTruncated).ret = -1 ∧
    (c_tcp_encode (fun _ => 0) ctxSoFail pktTruncated).ctx.msn = 11 ∧
    ctxSoFail.msn = 10 ∧
    (c_tcp_encode (fun _ => 0) ctxSoFail pktTruncated).ctx.oldTcphdr = hdrAfter ∧
    hdrAfter ≠ ctxSoFail.oldTcphdr ∧
    (c_tcp_encode (fun _ => 0) ctxSoFail pktTruncated).ctx.seqNumber = 100 ∧
    ctxSoFail.seqNumber = 0 ∧
    (c_tcp_encode (fun _ => 0) ctxSoFail pktTruncated).ctx.ackNumber = 200 ∧
    ctxSoFail.ackNumber = 0 := by decide

set_option maxRecDepth 100000 in
/-- C5: when the options table has no free slot for a new option kind
(here kind 9, declared length 4, with dynamic slots 6..15 all occupied), the
loop of tcp_compress_tcp_options skips TCP_OLEN_SACK_PERMITTED = 2 bytes
instead of the option's own length 4, emits no generic-irregular wrapper (the
compressed-options buffer stays empty, no new-item XI is written) and leaves
the table untouched; the walk then parses the option's value bytes as two NOP
options and terminates. -/
theorem options_table_full_skips_two_bytes :
    tcp_compress_tcp_options_step optStateFullTable =
      .cont { optStateFullTable with i := 2, opts := [1, 1] } ∧
    tcp_compress_tcp_options_walk 10 optStateFullTable =
      .finished { optStateFullTable with i := 0, opts := [], xi := [1, 1] } ∧
    optStateFullTable.opts.getD 1 0 = 4 ∧
    TCP_OLEN_SACK_PERMITTED = 2 := by decide

/-- C6: an option of kind 16 makes the very first statement of the option
loop, index = tcp_options_index[kind], read past the 16-entry table before
any validity check runs: the lookup is performed out of bounds, the walk
never finishes normally, and the kind-greater-than-15 guard of the source
sits only inside the emission switch where it does not consume the option. -/
theorem option_kind_16_reaches_oob_table_lookup :
    tcp_compress_tcp_options_step optStateKind16 = .oobIndexLookup 16 ∧
    tcp_compress_tcp_options_walk 1000 optStateKind16 = .oobIndexLookup 16 ∧
    tcp_options_index.get? 16 = none ∧
    tcp_options_index.length = 16 := by decide

/-- C7: the SACK block encoder compresses block_end against the same
reference as block_start, not against block_start: with reference 0,
block_start 0x100 and block_end 0x200 the emitted residues are 0x100 and
0x200, where compressing block_end against block_start would emit 0x100
twice. -/
theorem sack_block_end_compressed_against_reference :
    c_sack_block 0 256 512 = c_sack_pure_lsb 0 256 ++ c_sack_pure_lsb 0 512 ∧
    c_sack_block 0 256 512 = [1, 0, 2, 0] ∧
    c_sack_pure_lsb 0 256 ++ c_sack_pure_lsb 256 512 = [1, 0, 1, 0] ∧
    c_sack_block 0 256 512 ≠ c_sack_pure_lsb 0 256 ++ c_sack_pure_lsb 256 512 := by
  decide

/-- C8: the timestamp LSB encoder emits discriminator 0 with 7 value bits in
one byte when value and stored reference agree on the high 25 bits, else 10
with 14 bits in two bytes when they agree on the high 18 bits, else 110 with
21 bits in three bytes when they agree on the high 11 bits, else 111 with 29
bits in four bytes when they agree on the high 3 bits, and otherwise writes
the full 32 bits in four bytes (agreement on the high k bits of 32-bit
values is the quotient equality by 2^(32-k)). -/
theorem ts_lsb_discriminators (lastTs ts : Nat)
    (_hts : ts < 4294967296) (_hlast : lastTs < 4294967296) :
    (ts / 128 = lastTs / 128 →
      c_ts_lsb lastTs ts = [ts % 128])
    ∧ (ts / 128 ≠ lastTs / 128 → ts / 16384 = lastTs / 16384 →
      c_ts_lsb lastTs ts = [128 + ts / 256 % 64, ts % 256])
    ∧ (ts / 16384 ≠ lastTs / 16384 → ts / 2097152 = lastTs / 2097152 →
      c_ts_lsb lastTs ts = [192 + ts / 65536 % 32, ts / 256 % 256, ts % 256])
    ∧ (ts / 2097152 ≠ lastTs / 2097152 → ts / 536870912 = lastTs / 536870912 →
      c_ts_lsb lastTs ts =
        [224 + ts / 16777216 % 32, ts / 65536 % 256, ts / 256 % 256, ts % 256])
    ∧ (ts / 536870912 ≠ lastTs / 536870912 →
      c_ts_lsb lastTs ts =
        [ts / 16777216 % 256, ts / 65536 % 256, ts / 256 % 256, ts % 256]) := by
  refine ⟨?_, ?_, ?_, ?_, ?_⟩
  · intro h1
    simp [c_ts_lsb, h1]
  · intro h1 h2
    simp [c_ts_lsb, h1, h2]
  · intro h2 h3
    have h1 : ¬ ts / 128 = lastTs / 128 := by
      intro he
      exact h2 (by omega)
    simp [c_ts_lsb, h1, h2, h3]
  · intro h3 h4
    have h2 : ¬ ts / 16384 = lastTs / 16384 := by
      intro he
      exact h3 (by omega)
    have h1 : ¬ ts / 128 = lastTs / 128 := by
      intro he
      exact h2 (by omega)
    simp [c_ts_lsb, h1, h2, h3, h4]
  · intro h4
    have h3 : ¬ ts / 2097152 = lastTs / 2097152 := by
      intro he
      exact h4 (by omega)
    have h2 : ¬ ts / 16384 = lastTs / 16384 := by
      intro he
      exact h3 (by omega)
    have h1 : ¬ ts / 128 = lastTs / 128 := by
      intro he
      exact h2 (by omega)
    simp [c_ts_lsb, h1, h2, h3, h4]

/-- C8 witness: value 5 against reference 0 agrees on the high 25 bits and is
emitted as the single byte 5 under discriminator 0. -/
theorem ts_lsb_discriminators_witness : c_ts_lsb 0 5 = [5] :=
  (ts_lsb_discriminators 0 5 (by decide) (by decide)).1 (by decide)

/-- C9: counterexample to the claim that last_ip_id always equals the IP-ID
of the most recent accepted packet: a successful SO-state encode that emits
seq_1 for a packet with IP-ID 6 leaves last_ip_id at the previous value 5,
because only the dynamic chain of IR and IR-DYN and the co_common branch of
co_baseheader write last_ip_id. -/
theorem seq1_leaves_last_ip_id_stale :
    (c_tcp_encode (fun _ => 0) ctxSoSeq pktSteady).pkt = some (.co .seq1) ∧
    0 ≤ (c_tcp_encode (fun _ => 0) ctxSoSeq pktSteady).ret ∧
    (c_tcp_encode (fun _ => 0) ctxSoSeq pktSteady).ctx.lastIpId = 5 ∧
    pktSteady.ipId = 6 := by decide

/-- C9 (amended): after an accepted packet with an innermost IPv4 header,
last_ip_id equals the packet's IP-ID exactly when the emitted packet was IR,
IR-DYN or co_common; the rnd_1..8 and seq_1..8 formats leave last_ip_id
unchanged, and so does a failed CO build. -/
theorem last_ip_id_update_characterization (crc8 : List Nat → Nat) (c : TcpCtxM)
    (p : PktM) (hv : p.isV4 = true) :
    ((c.state = .ir ∨ c.state = .fo) →
      (c_tcp_encode crc8 c p).ctx.lastIpId = p.ipId)
    ∧ (c.state = .so → p.remainLenOk = true →
      (c_tcp_encode crc8 c p).ctx.lastIpId =
        (if (c_tcp_encode crc8 c p).pkt = some (.co .coCommon) then p.ipId
         else c.lastIpId))
    ∧ (c.state = .so → p.remainLenOk = false →
      (c_tcp_encode crc8 c p).ctx.lastIpId = c.lastIpId) := by
  refine ⟨?_, ?_, ?_⟩
  · rintro (h | h) <;> simp [c_tcp_encode, h, hv]
  · intro h hr
    simp only [c_tcp_encode, h, hv, hr]
    by_cases hf :
        co_select
          { c with ecnUsed := p.ipEcnFlags ||| p.tcp.tcpEcnFlags, state := .so,
                   ipIdBehavior := ipIdBehaviorAdvance c.ipIdBehavior c.lastIpId p.ipId }
          p (decide (p.ttlHopl ≠ c.ttlHopl)) = .coCommon <;>
      simp [co_baseheader, hf, hv]
  · intro h hr
    simp [c_tcp_encode, h, hv, hr]

/-- C9 witness for the amended characterization: an urgent-flag change forces
co_common, and then last_ip_id does take the packet's IP-ID 6. -/
theorem last_ip_id_update_characterization_witness :
    (c_tcp_encode (fun _ => 0) ctxSoSeq pktUrgent).ctx.lastIpId = 6 := by
  have h := (last_ip_id_update_characterization (fun _ => 0) ctxSoSeq pktUrgent rfl).2.1
    rfl rfl
  rw [h]
  decide

/-- C10: counterexample to the claim that context creation succeeds only when
the terminating protocol is TCP: a single IPv4 header with header length 5,
no fragmentation and protocol 17 (UDP) in a 40-byte packet passes every check
of c_tcp_create, which never tests the terminating protocol. -/
theorem create_accepts_non_tcp_protocol :
    c_tcp_create [.v4 5 0 0 17] 40 = .ok 17 20 ∧ (17 : Nat) ≠ ROHC_IPPROTO_TCP := by
  decide

/-- C10 (amended): context creation checks the remaining preconditions as the
claim states them, but not the transport protocol: a version outside 4 and 6
is rejected, an IPv4 header with options or fragmentation is rejected, and
success implies that the total IP-header size is strictly below the packet
size; the terminating protocol is returned unchecked (TCP is enforced by
c_tcp_check_profile, not by c_tcp_create). -/
theorem create_preconditions (chain : List IpHdr) (pktSize : Nat) :
    (∀ pr s, c_tcp_create chain pktSize = .ok pr s → s < pktSize)
    ∧ (∀ hl mf rf pr rest, chain = .v4 hl mf rf pr :: rest →
        hl ≠ 5 ∨ mf ≠ 0 ∨ rf ≠ 0 → c_tcp_create chain pktSize = .reject)
    ∧ (∀ v rest, chain = .badVersion v :: rest →
        c_tcp_create chain pktSize = .reject) := by
  refine ⟨?_, ?_, ?_⟩
  · intro pr s h
    unfold c_tcp_create at h
    cases hw : createHdrWalk chain 0 pktSize with
    | ok pr2 s2 =>
        rw [hw] at h
        by_cases hle : pktSize ≤ s2
        · simp [hle] at h
        · simp [hle] at h
          omega
    | reject => rw [hw] at h; simp at h
    | stuck => rw [hw] at h; simp at h
  · intro hl mf rf pr rest hchain hbad
    subst hchain
    rcases hbad with hb | hb | hb
    · simp [c_tcp_create, createHdrWalk, hb]
    · by_cases hhl : hl = 5
      · subst hhl
        simp [c_tcp_create, createHdrWalk, hb]
      · simp [c_tcp_create, createHdrWalk, hhl]
    · by_cases hhl : hl = 5
      · subst hhl
        simp [c_tcp_create, createHdrWalk, hb]
      · simp [c_tcp_create, createHdrWalk, hhl]
  · intro v rest hchain
    subst hchain
    simp [c_tcp_create, createHdrWalk]

/-- C10 witness for the amended statement: an IPv4 header with header length
4 is rejected. -/
theorem create_preconditions_witness :
    c_tcp_create [.v4 4 0 0 6] 100 = .reject :=
  (create_preconditions [.v4 4 0 0 6] 100).2.1 4 0 0 6 [] rfl (Or.inl (by decide))
